import Mathlib

/-!
Verification of the geocoding batch tool in
`src/data/2025/geocode_hospitals_csv.py`.

The Python script reads a CSV of hospital records, resolves coordinates via
the US Census geocoder with a three-tier address fallback (street address,
hospital name, city centroid), caches results per run under the primary
address, rounds coordinates, and writes an output CSV plus a side table of
unmatched rows.

The embedding below models:
  * CSV rows as ordered association lists of string cells;
  * mutated row cells as Python values (`None`, `str`, `float` as `ℚ`);
  * the external geocoding service as an oracle `String → CensusResponse`
    describing the parsed JSON body of a successful HTTP response
    (transport failures abort the whole Python run and are outside the
    per-row semantics modelled here);
  * the per-row resolution, cache and rounding as explicit state passing,
    with a per-row trace recording the addresses sent over the network and
    the number of inter-request sleeps performed.
-/

namespace Geocode

/-- A CSV row as produced by the tabular reader: ordered (column, value)
pairs, all values strings (`csv.DictReader` output). -/
abbrev Row := List (String × String)

/-- A Python value stored in a mutated row cell: `None`, a string, or a
float (modelled as a rational). -/
inductive PyVal where
  | vNone : PyVal
  | vStr : String → PyVal
  | vNum : ℚ → PyVal
deriving DecidableEq

/-- First-match association-list lookup; Python `dict` access for the
unique-key dictionaries used by the script. -/
def dictGet {α : Type} : List (String × α) → String → Option α
  | [], _ => Option.none
  | p :: ps, k => if p.1 = k then Option.some p.2 else dictGet ps k

/-- Python `row.get(k)`: the cell as a Python value (`None` when the
column is missing). -/
def pyGet (row : Row) (k : String) : PyVal :=
  match dictGet row k with
  | Option.none => PyVal.vNone
  | Option.some s => PyVal.vStr s

/-- Python `row.get(k, "")`. -/
def getStr (row : Row) (k : String) : String := (dictGet row k).getD ""

/-- Python truthiness of the cell values the script tests. -/
def truthy : PyVal → Bool
  | PyVal.vNone => false
  | PyVal.vStr s => s != ""
  | PyVal.vNum q => q != 0

/-- Characters stripped by Python `str.strip()` with no argument. -/
def isPySpace (c : Char) : Bool :=
  c == ' ' || c == '\t' || c == '\n' || c == '\r' || c == '\x0b' || c == '\x0c'

/-- Python `str.strip()`: drop leading and trailing whitespace. -/
def pyStrip (s : String) : String :=
  String.mk (((s.toList.dropWhile isPySpace).reverse.dropWhile isPySpace).reverse)

def STREET_COL : String := "Street_Address"
def CITY_COL : String := "City"
def STATE_COL : String := "State"
def ZIP_COL : String := "ZIP_Code"
def HOSP_COL : String := "Hospital_Name"

/-- Python `join_nonempty(parts)`: join the truthy (non-empty) parts with
the default separator `", "` (the script never passes another one). -/
def join_nonempty (parts : List String) : String :=
  String.intercalate ", " (parts.filter (fun p => p != ""))

/-- Python `build_primary_address`: Street + City + State + ZIP. -/
def build_primary_address (row : Row) : String :=
  join_nonempty [pyStrip (getStr row STREET_COL), pyStrip (getStr row CITY_COL),
    pyStrip (getStr row STATE_COL), pyStrip (getStr row ZIP_COL)]

/-- Python `build_hospital_address`: Hospital_Name + City + State + ZIP. -/
def build_hospital_address (row : Row) : String :=
  join_nonempty [pyStrip (getStr row HOSP_COL), pyStrip (getStr row CITY_COL),
    pyStrip (getStr row STATE_COL), pyStrip (getStr row ZIP_COL)]

/-- Python `build_city_address`: City + State + ZIP (city centroid). -/
def build_city_address (row : Row) : String :=
  join_nonempty [pyStrip (getStr row CITY_COL), pyStrip (getStr row STATE_COL),
    pyStrip (getStr row ZIP_COL)]

/-- The `coordinates` object of a census match candidate: `x` is the
longitude, `y` the latitude, each possibly missing. -/
structure Coordinates where
  x : Option ℚ
  y : Option ℚ
deriving DecidableEq

/-- The `tigerLine` object of a census match candidate. -/
structure TigerLine where
  side : Option String
deriving DecidableEq

/-- One match candidate in the census response body. -/
structure AddressMatch where
  coordinates : Option Coordinates
  tigerLine : Option TigerLine
deriving DecidableEq

/-- The parsed JSON body of a successful census geocoder response:
`(data.get("result") or {}).get("addressMatches") or []`. -/
structure CensusResponse where
  addressMatches : List AddressMatch
deriving DecidableEq

/-- A geocode result triple `(lat, lon, confidence)`; absent latitude and
longitude mean "no match". -/
structure Geo where
  lat : Option ℚ
  lon : Option ℚ
  conf : Option String
deriving DecidableEq

/-- The absent result `(None, None, None)`. -/
def Geo.absent : Geo := ⟨Option.none, Option.none, Option.none⟩

/-- A result counts as a match when both coordinates are present
(`lat is not None and lon is not None`). -/
def Geo.matched (g : Geo) : Bool := g.lat.isSome && g.lon.isSome

/-- Extraction of the result triple from a successful response body,
lines 72-80 of the script: no candidates gives the absent result,
otherwise the first candidate's `coordinates` and `tigerLine.side` are
used (`lat = y`, `lon = x`). -/
def parseMatches : CensusResponse → Geo
  | ⟨[]⟩ => Geo.absent
  | ⟨top :: _⟩ =>
    ⟨(top.coordinates.getD ⟨Option.none, Option.none⟩).y,
     (top.coordinates.getD ⟨Option.none, Option.none⟩).x,
     (top.tigerLine.getD ⟨Option.none⟩).side⟩

/-- Python `census_geocode(address)`, lines 64-80, against a service
oracle `svc` giving the parsed body of the successful HTTP response for
each address. Returns the result triple together with the list of
addresses sent over the network (empty address short-circuits with no
request; otherwise exactly one GET with this address). -/
def census_geocode (svc : String → CensusResponse) (address : String) :
    Geo × List String :=
  if address = "" then (Geo.absent, [])
  else (parseMatches (svc address), [address])

/-- The in-run cache: primary-address string to stored result triple. -/
abbrev Cache := List (String × Geo)

/-- Python `row.get("Geo_Source") or "census"`. -/
def sourceDefault (row : Row) : String :=
  match dictGet row "Geo_Source" with
  | Option.none => "census"
  | Option.some s => if s = "" then "census" else s

/-- The guard on line 145: `not (lat and lon) and primary_addr` — the row
enters the lookup block iff it lacks truthy coordinates and its primary
address is non-empty. -/
def entersLookup (row : Row) : Bool :=
  !(truthy (pyGet row "Latitude") && truthy (pyGet row "Longitude"))
    && !(build_primary_address row == "")

/-- The three-tier attempt chain, lines 151-178: tier 1 queries the
primary address; on no match, tier 2 queries the hospital address when it
is non-empty and differs from the primary; tier 3 queries the city
address when coordinates are still missing and it is non-empty. Each
attempt overwrites the running triple; `src0` is the pre-existing source
kept when no tier matches. Returns (triple, source, addresses queried). -/
def attemptChain (svc : String → CensusResponse) (row : Row)
    (primary_addr src0 : String) : Geo × String × List String :=
  let a1 := census_geocode svc primary_addr
  if a1.1.matched then (a1.1, "census_primary", a1.2)
  else
    let hosp_addr := build_hospital_address row
    let s2 : Geo × String × List String :=
      if hosp_addr ≠ "" ∧ hosp_addr ≠ primary_addr then
        let a2 := census_geocode svc hosp_addr
        if a2.1.matched then (a2.1, "census_hospital", a1.2 ++ a2.2)
        else (a2.1, src0, a1.2 ++ a2.2)
      else (a1.1, src0, a1.2)
    if s2.1.lat = Option.none ∨ s2.1.lon = Option.none then
      let city_addr := build_city_address row
      if city_addr ≠ "" then
        let a3 := census_geocode svc city_addr
        if a3.1.matched then (a3.1, "census_city", s2.2.2 ++ a3.2)
        else (a3.1, s2.2.1, s2.2.2 ++ a3.2)
      else s2
    else s2

/-- Outcome of the lookup block for one row. -/
structure ResolveOut where
  cache : Cache
  hit : Bool
  geo : Option Geo
  src : String
  calls : List String
  slept : Nat
deriving DecidableEq

/-- Lines 145-181: skip when the guard fails; on a cache hit under the
primary address reuse the stored triple verbatim; otherwise run the
attempt chain, store the final triple (matched or not) under the primary
address and sleep once. `geo = none` records that the block was not
entered at all. -/
def resolveRow (svc : String → CensusResponse) (c : Cache) (row : Row) :
    ResolveOut :=
  let primary_addr := build_primary_address row
  if entersLookup row then
    match dictGet c primary_addr with
    | Option.some g => ⟨c, true, Option.some g, sourceDefault row, [], 0⟩
    | Option.none =>
      let r := attemptChain svc row primary_addr (sourceDefault row)
      ⟨c ++ [(primary_addr, r.1)], false, Option.some r.1, r.2.1, r.2.2, 1⟩
  else ⟨c, false, Option.none, sourceDefault row, [], 0⟩

/-- Model of Python `round(x, n)` applied to the exact rational value:
round to the nearest integer, half to even. Implemented on the
numerator/denominator pair so it evaluates by kernel reduction: for
`q = num/den` (`den > 0`) the fractional part compares with `1/2` as
`2*(num - floor*den)` against `den`. -/
def roundHalfEven (q : ℚ) : ℤ :=
  let f := q.num.fdiv q.den
  let r2 := 2 * (q.num - f * (q.den : ℤ))
  if r2 < (q.den : ℤ) then f
  else if (q.den : ℤ) < r2 then f + 1
  else if f % 2 = 0 then f else f + 1

/-- Round a rational to `n` decimal places, half to even: scale by
`10^n`, round half to even, scale back. -/
def roundToDec (n : ℤ) (q : ℚ) : ℚ :=
  if 0 ≤ n then
    let p : ℕ := 10 ^ n.toNat
    mkRat (roundHalfEven (mkRat (q.num * p) q.den)) p
  else
    let p : ℕ := 10 ^ (-n).toNat
    ((roundHalfEven (mkRat q.num (q.den * p)) * (p : ℤ) : ℤ) : ℚ)

/-- The exact decimal value `m / 10^e`, used to state concrete rounding
facts. -/
def decimal (m : ℤ) (e : ℕ) : ℚ := mkRat m (10 ^ e)

def digitsVal (cs : List Char) : ℕ :=
  cs.foldl (fun a c => 10 * a + (c.toNat - '0'.toNat)) 0

/-- Model of the Python builtin `float` applied to a cell string,
restricted to plain decimal literals (optional surrounding whitespace,
optional sign, digits with an optional decimal point); anything else is a
conversion error (`Option.none`). -/
def parseFloat (s : String) : Option ℚ :=
  let cs := (pyStrip s).toList
  let sgncs : ℤ × List Char :=
    match cs with
    | '-' :: t => (-1, t)
    | '+' :: t => (1, t)
    | _ => (1, cs)
  let ip := sgncs.2.takeWhile Char.isDigit
  let rest := sgncs.2.dropWhile Char.isDigit
  match rest with
  | [] =>
    if ip.isEmpty then Option.none
    else Option.some ((sgncs.1 * digitsVal ip : ℤ) : ℚ)
  | '.' :: t =>
    let fp := t.takeWhile Char.isDigit
    if !(t.dropWhile Char.isDigit).isEmpty then Option.none
    else if ip.isEmpty && fp.isEmpty then Option.none
    else Option.some
      (mkRat (sgncs.1 * (digitsVal ip * 10 ^ fp.length + digitsVal fp)) (10 ^ fp.length))
  | _ => Option.none

/-- One step of the rounding block (lines 184-190): `None` is skipped, a
float is rounded, a string is converted with `float` and rounded;
`Option.none` signals the conversion exception. -/
def roundCell (prec : ℤ) : PyVal → Option PyVal
  | PyVal.vNone => Option.some PyVal.vNone
  | PyVal.vNum q => Option.some (PyVal.vNum (roundToDec prec q))
  | PyVal.vStr s =>
    match parseFloat s with
    | Option.some q => Option.some (PyVal.vNum (roundToDec prec q))
    | Option.none => Option.none

/-- The whole `try` block: an exception while rounding the latitude
leaves both cells as they were; an exception while rounding the
longitude keeps the already rounded latitude. -/
def roundPair (prec : ℤ) (lat lon : PyVal) : PyVal × PyVal :=
  match roundCell prec lat with
  | Option.none => (lat, lon)
  | Option.some lat1 =>
    match roundCell prec lon with
    | Option.none => (lat1, lon)
    | Option.some lon1 => (lat1, lon1)

/-- Python `row[k] = v` on an ordered dict: replace in place when the key
exists, append otherwise. -/
def setCell {α : Type} (r : List (String × α)) (k : String) (v : α) :
    List (String × α) :=
  match r with
  | [] => [(k, v)]
  | p :: ps => if p.1 = k then (k, v) :: ps else p :: setCell ps k v

/-- The input row viewed as a dict of Python string values. -/
def rowCells (row : Row) : List (String × PyVal) :=
  row.map (fun p => (p.1, PyVal.vStr p.2))

def ofOptQ : Option ℚ → PyVal
  | Option.none => PyVal.vNone
  | Option.some q => PyVal.vNum q

def ofOptS : Option String → PyVal
  | Option.none => PyVal.vNone
  | Option.some s => PyVal.vStr s

/-- Everything the loop body records for one row. -/
structure RowTrace where
  primary : String
  hit : Bool
  geo : Option Geo
  calls : List String
  slept : Nat
  out : List (String × PyVal)
  unmatchedRec : Option (List (String × PyVal))
deriving DecidableEq

/-- The `(lat, lon, conf)` variables right before the rounding block:
when the lookup block ran they hold its triple, otherwise the row's
pre-existing cells. -/
def preCells (row : Row) (geo : Option Geo) : PyVal × PyVal × PyVal :=
  match geo with
  | Option.some g => (ofOptQ g.lat, ofOptQ g.lon, ofOptS g.conf)
  | Option.none =>
    (pyGet row "Latitude", pyGet row "Longitude", pyGet row "Geo_Confidence")

/-- Lines 183-195: round present coordinates and write the four result
columns into the row. -/
def outRowOf (prec : ℤ) (row : Row) (src : String) (geo : Option Geo) :
    List (String × PyVal) :=
  let cells := preCells row geo
  let rp := roundPair prec cells.1 cells.2.1
  setCell (setCell (setCell (setCell (rowCells row)
    "Latitude" rp.1) "Longitude" rp.2) "Geo_Source" (PyVal.vStr src))
    "Geo_Confidence" cells.2.2

/-- Lines 197-203: when the final latitude or longitude is `None`, a copy
of the augmented row with the three candidate addresses appended. -/
def unmatchedOf (prec : ℤ) (row : Row) (src : String) (geo : Option Geo) :
    Option (List (String × PyVal)) :=
  let rp := roundPair prec (preCells row geo).1 (preCells row geo).2.1
  if rp.1 = PyVal.vNone ∨ rp.2 = PyVal.vNone then
    Option.some (setCell (setCell (setCell (outRowOf prec row src geo)
      "Unmatched_Primary_Address" (PyVal.vStr (build_primary_address row)))
      "Unmatched_Hospital_Address" (PyVal.vStr (build_hospital_address row)))
      "Unmatched_City_Address" (PyVal.vStr (build_city_address row)))
  else Option.none

/-- The loop body for one row, lines 132-205: read the pre-existing
cells, run the lookup block, round any present coordinates, write the
four result columns into the row, and collect an unmatched copy (with the
three candidate addresses appended) when the final latitude or longitude
is `None`. -/
def processRow (svc : String → CensusResponse) (prec : ℤ) (c : Cache)
    (row : Row) : Cache × RowTrace :=
  let ro := resolveRow svc c row
  (ro.cache,
   ⟨build_primary_address row, ro.hit, ro.geo, ro.calls, ro.slept,
    outRowOf prec row ro.src ro.geo, unmatchedOf prec row ro.src ro.geo⟩)

/-- The processing loop over a list of rows, threading the cache. -/
def processList (svc : String → CensusResponse) (prec : ℤ) :
    Cache → List Row → Cache × List RowTrace
  | c, [] => (c, [])
  | c, r :: rs =>
    let p1 := processRow svc prec c r
    let p2 := processList svc prec p1.1 rs
    (p2.1, p1.2 :: p2.2)

def REQUIRED_COLS : List String :=
  [STREET_COL, CITY_COL, STATE_COL, ZIP_COL, HOSP_COL]

def RESULT_COLS : List String :=
  ["Latitude", "Longitude", "Geo_Source", "Geo_Confidence"]

/-- The headers are the keys of the first row. -/
def headersOf : List Row → List String
  | [] => []
  | r :: _ => r.map Prod.fst

/-- Everything observable `main` produces: the output header order, the
per-row traces (in input order), the output rows, the accumulated
unmatched records, and the side file written only when some row stayed
unmatched. -/
structure RunResult where
  fieldnames : List String
  traces : List RowTrace
  outRows : List (List (String × PyVal))
  unmatched : List (List (String × PyVal))
  unmatchedFile : Option (String × List (List (String × PyVal)))
deriving DecidableEq

/-- Python `main`, lines 83-221, with the I/O replaced by the service
oracle and the returned `RunResult`: empty input or a missing required
column aborts before any network activity (`Option.none`); otherwise rows
`start` to `end-1` are processed in order with an initially empty cache,
and the unmatched side table is written to the fixed path only when
non-empty. -/
def endIndex (start : ℕ) (limit : Option ℕ) (n : ℕ) : ℕ :=
  match limit with
  | Option.none => n
  | Option.some l => min n (start + l)

/-- The processed index range, `range(args.start, end)`, as the
corresponding sub-list of the input rows. -/
def sliceOf (start : ℕ) (limit : Option ℕ) (rows : List Row) : List Row :=
  (rows.drop start).take (endIndex start limit rows.length - start)

def main (svc : String → CensusResponse) (prec : ℤ) (start : ℕ)
    (limit : Option ℕ) (rows : List Row) : Option RunResult :=
  if rows = [] then Option.none
  else if !(REQUIRED_COLS.all (fun col => (headersOf rows).contains col)) then
    Option.none
  else
    let headers := headersOf rows
    let fieldnames := headers ++ RESULT_COLS.filter (fun col => !headers.contains col)
    let ts := (processList svc prec [] (sliceOf start limit rows)).2
    let unm := ts.filterMap RowTrace.unmatchedRec
    Option.some
      ⟨fieldnames, ts, ts.map RowTrace.out, unm,
       if unm = [] then Option.none
       else Option.some ("unmatched_geocode.csv", unm)⟩


/-! ### Concrete fixtures used to evaluate the embedding -/

/-- A service in which no address has a match candidate. -/
def svcNoMatch : String → CensusResponse := fun _ => ⟨[]⟩

/-- One match candidate at (40.712776, -74.005974) on tiger line side L. -/
def sampleMatch : AddressMatch :=
  ⟨Option.some ⟨Option.some (decimal (-74005974) 6), Option.some (decimal 40712776 6)⟩,
   Option.some ⟨Option.some "L"⟩⟩

def rowA : Row :=
  [("Street_Address", "1 Main St"), ("City", "Springfield"), ("State", "IL"),
   ("ZIP_Code", "62701"), ("Hospital_Name", "General Hospital")]

/-- Like `rowA` but with a different street, the same hospital and city. -/
def rowB : Row :=
  [("Street_Address", "2 Oak Ave"), ("City", "Springfield"), ("State", "IL"),
   ("ZIP_Code", "62701"), ("Hospital_Name", "General Hospital")]

/-- `rowA` as it comes back from a previous run at precision 5. -/
def rowC : Row :=
  rowA ++ [("Latitude", "40.71278"), ("Longitude", "-74.00597"),
    ("Geo_Source", "census_primary"), ("Geo_Confidence", "L")]

/-- A service matching exactly the primary address of `rowA`. -/
def svcPrimaryA : String → CensusResponse := fun a =>
  if a = "1 Main St, Springfield, IL, 62701" then ⟨[sampleMatch]⟩ else ⟨[]⟩

/-- A service matching exactly the city address shared by `rowA`/`rowB`. -/
def svcCityOnly : String → CensusResponse := fun a =>
  if a = "Springfield, IL, 62701" then ⟨[sampleMatch]⟩ else ⟨[]⟩

/-- The triple `sampleMatch` parses to. -/
def gA : Geo :=
  ⟨Option.some (decimal 40712776 6), Option.some (decimal (-74005974) 6),
   Option.some "L"⟩

/-- A cache already holding a triple for the primary address of `rowA`. -/
def cacheA : Cache := [("1 Main St, Springfield, IL, 62701", gA)]

/-- The traces of running `rowA` twice in a row against `svcPrimaryA`. -/
def traceA : RowTrace := (processRow svcPrimaryA 5 [] rowA).2

def traceA2 : RowTrace :=
  (processRow svcPrimaryA 5 (processRow svcPrimaryA 5 [] rowA).1 rowA).2

/-- The run result for a one-row input under `svcNoMatch`. -/
def runA : RunResult :=
  (main svcNoMatch 5 0 Option.none [rowA]).getD ⟨[], [], [], [], Option.none⟩

/-! ### Basic dictionary lemmas -/

theorem dictGet_setCell_self {α : Type} (r : List (String × α)) (k : String) (v : α) :
    dictGet (setCell r k v) k = Option.some v := by
  induction r with
  | nil => simp [setCell, dictGet]
  | cons p ps ih =>
    by_cases h : p.1 = k
    · simp [setCell, h, dictGet]
    · simp [setCell, h, dictGet, ih]

theorem dictGet_setCell_ne {α : Type} (r : List (String × α)) (k k' : String) (v : α)
    (h : k' ≠ k) : dictGet (setCell r k v) k' = dictGet r k' := by
  have h' : ¬(k = k') := fun hh => h hh.symm
  induction r with
  | nil => simp [setCell, dictGet, h']
  | cons p ps ih =>
    by_cases hp : p.1 = k
    · simp [setCell, hp, dictGet, h']
    · simp only [setCell, hp, if_false, dictGet]
      by_cases hp' : p.1 = k'
      · simp [hp']
      · simp [hp', ih]

theorem keys_setCell {α : Type} (r : List (String × α)) (k : String) (v : α) :
    (setCell r k v).map Prod.fst =
      if k ∈ r.map Prod.fst then r.map Prod.fst else r.map Prod.fst ++ [k] := by
  induction r with
  | nil => simp [setCell]
  | cons p ps ih =>
    by_cases h : p.1 = k
    · simp [setCell, h]
    · have hk : ¬(k = p.1) := fun hh => h hh.symm
      by_cases hm : k ∈ ps.map Prod.fst
      · simp [setCell, h, ih, hm, hk]
      · simp [setCell, h, ih, hm, hk]

theorem dictGet_rowCells (row : Row) (k : String) :
    dictGet (rowCells row) k = (dictGet row k).map PyVal.vStr := by
  induction row with
  | nil => simp [rowCells, dictGet]
  | cons p ps ih =>
    by_cases h : p.1 = k
    · simp [rowCells, dictGet, h]
    · simpa [rowCells, dictGet, h] using ih

theorem dictGet_append_left {α : Type} (c l : List (String × α)) (k : String) (v : α)
    (h : dictGet c k = Option.some v) : dictGet (c ++ l) k = Option.some v := by
  induction c with
  | nil => simp [dictGet] at h
  | cons p ps ih =>
    by_cases hp : p.1 = k
    · simpa [dictGet, hp] using h
    · simp [dictGet, hp] at h ⊢
      exact ih h

theorem dictGet_append_self {α : Type} (c : List (String × α)) (k : String) (v : α)
    (h : dictGet c k = Option.none) : dictGet (c ++ [(k, v)]) k = Option.some v := by
  induction c with
  | nil => simp [dictGet]
  | cons p ps ih =>
    by_cases hp : p.1 = k
    · simp [dictGet, hp] at h
    · simp [dictGet, hp] at h ⊢
      exact ih h

/-! ### The lookup block, case by case -/

theorem resolveRow_not_enter (svc : String → CensusResponse) (c : Cache) (row : Row)
    (h : entersLookup row = false) :
    resolveRow svc c row = ⟨c, false, Option.none, sourceDefault row, [], 0⟩ := by
  simp [resolveRow, h]

theorem resolveRow_hit (svc : String → CensusResponse) (c : Cache) (row : Row) (g : Geo)
    (h : entersLookup row = true)
    (hg : dictGet c (build_primary_address row) = Option.some g) :
    resolveRow svc c row = ⟨c, true, Option.some g, sourceDefault row, [], 0⟩ := by
  simp [resolveRow, h, hg]

theorem resolveRow_miss (svc : String → CensusResponse) (c : Cache) (row : Row)
    (h : entersLookup row = true)
    (hg : dictGet c (build_primary_address row) = Option.none) :
    resolveRow svc c row =
      ⟨c ++ [(build_primary_address row,
         (attemptChain svc row (build_primary_address row) (sourceDefault row)).1)],
       false,
       Option.some (attemptChain svc row (build_primary_address row) (sourceDefault row)).1,
       (attemptChain svc row (build_primary_address row) (sourceDefault row)).2.1,
       (attemptChain svc row (build_primary_address row) (sourceDefault row)).2.2, 1⟩ := by
  simp [resolveRow, h, hg]

theorem Geo.matched_eq_false_iff (g : Geo) :
    g.matched = false ↔ (g.lat = Option.none ∨ g.lon = Option.none) := by
  cases hl : g.lat <;> cases hlo : g.lon <;> simp [Geo.matched, hl, hlo]

theorem Geo.matched_eq_true_iff (g : Geo) :
    g.matched = true ↔ (g.lat ≠ Option.none ∧ g.lon ≠ Option.none) := by
  cases hl : g.lat <;> cases hlo : g.lon <;> simp [Geo.matched, hl, hlo]

theorem roundPair_num (prec : ℤ) (a b : ℚ) :
    roundPair prec (PyVal.vNum a) (PyVal.vNum b)
      = (PyVal.vNum (roundToDec prec a), PyVal.vNum (roundToDec prec b)) := by
  simp [roundPair, roundCell]

theorem roundCell_not_str (prec : ℤ) (v : PyVal) (h : ∀ s, v ≠ PyVal.vStr s) :
    roundCell prec v =
      Option.some (match v with
        | PyVal.vNum q => PyVal.vNum (roundToDec prec q)
        | _ => v) := by
  cases v with
  | vNone => simp [roundCell]
  | vStr s => exact absurd rfl (h s)
  | vNum q => simp [roundCell]

theorem dictGet_outRowOf_source (prec : ℤ) (row : Row) (src : String) (geo : Option Geo) :
    dictGet (outRowOf prec row src geo) "Geo_Source"
      = Option.some (PyVal.vStr src) := by
  unfold outRowOf
  rw [dictGet_setCell_ne _ _ _ _ (by decide), dictGet_setCell_self]

theorem dictGet_outRowOf_lat (prec : ℤ) (row : Row) (src : String) (geo : Option Geo) :
    dictGet (outRowOf prec row src geo) "Latitude"
      = Option.some (roundPair prec (preCells row geo).1 (preCells row geo).2.1).1 := by
  unfold outRowOf
  rw [dictGet_setCell_ne _ _ _ _ (by decide), dictGet_setCell_ne _ _ _ _ (by decide),
    dictGet_setCell_ne _ _ _ _ (by decide), dictGet_setCell_self]

theorem dictGet_outRowOf_lon (prec : ℤ) (row : Row) (src : String) (geo : Option Geo) :
    dictGet (outRowOf prec row src geo) "Longitude"
      = Option.some (roundPair prec (preCells row geo).1 (preCells row geo).2.1).2 := by
  unfold outRowOf
  rw [dictGet_setCell_ne _ _ _ _ (by decide), dictGet_setCell_ne _ _ _ _ (by decide),
    dictGet_setCell_self]

theorem dictGet_outRowOf_conf (prec : ℤ) (row : Row) (src : String) (geo : Option Geo) :
    dictGet (outRowOf prec row src geo) "Geo_Confidence"
      = Option.some (preCells row geo).2.2 := by
  unfold outRowOf
  rw [dictGet_setCell_self]

theorem dictGet_outRowOf_other (prec : ℤ) (row : Row) (src : String) (geo : Option Geo)
    (k : String) (h : ¬ k ∈ RESULT_COLS) :
    dictGet (outRowOf prec row src geo) k = (dictGet row k).map PyVal.vStr := by
  simp [RESULT_COLS] at h
  unfold outRowOf
  rw [dictGet_setCell_ne _ _ _ _ h.2.2.2, dictGet_setCell_ne _ _ _ _ h.2.2.1,
    dictGet_setCell_ne _ _ _ _ h.2.1, dictGet_setCell_ne _ _ _ _ h.1,
    dictGet_rowCells]

theorem processRow_cache (svc : String → CensusResponse) (prec : ℤ) (c : Cache) (row : Row) :
    (processRow svc prec c row).1 = (resolveRow svc c row).cache := rfl

theorem processRow_trace (svc : String → CensusResponse) (prec : ℤ) (c : Cache) (row : Row) :
    (processRow svc prec c row).2 =
      ⟨build_primary_address row, (resolveRow svc c row).hit, (resolveRow svc c row).geo,
       (resolveRow svc c row).calls, (resolveRow svc c row).slept,
       outRowOf prec row (resolveRow svc c row).src (resolveRow svc c row).geo,
       unmatchedOf prec row (resolveRow svc c row).src (resolveRow svc c row).geo⟩ := rfl

theorem entersLookup_eq_true (row : Row)
    (h1 : (truthy (pyGet row "Latitude") && truthy (pyGet row "Longitude")) = false)
    (h2 : build_primary_address row ≠ "") : entersLookup row = true := by
  simp [entersLookup, h1, h2]

theorem entersLookup_primary_ne (row : Row) (h : entersLookup row = true) :
    build_primary_address row ≠ "" := by
  simp [entersLookup] at h
  exact h.2

/-! ### The attempt chain, case by case -/


theorem attemptChain_matched (svc : String → CensusResponse) (row : Row) (p s0 : String)
    (hp : p ≠ "") (hm : (parseMatches (svc p)).matched = true) :
    attemptChain svc row p s0 = (parseMatches (svc p), "census_primary", [p]) := by
  simp [attemptChain, census_geocode, hp, hm]

theorem attemptChain_calls_shape (svc : String → CensusResponse) (row : Row) (p s0 : String)
    (hp : p ≠ "") :
    (attemptChain svc row p s0).2.2 =
      [p] ++ (if (parseMatches (svc p)).matched = false ∧ build_hospital_address row ≠ ""
                ∧ build_hospital_address row ≠ p
              then [build_hospital_address row] else [])
        ++ (if (parseMatches (svc p)).matched = false
              ∧ ((if build_hospital_address row ≠ "" ∧ build_hospital_address row ≠ p
                  then parseMatches (svc (build_hospital_address row))
                  else parseMatches (svc p)).lat = Option.none
                ∨ (if build_hospital_address row ≠ "" ∧ build_hospital_address row ≠ p
                   then parseMatches (svc (build_hospital_address row))
                   else parseMatches (svc p)).lon = Option.none)
              ∧ build_city_address row ≠ ""
            then [build_city_address row] else []) := by
  by_cases h1 : (parseMatches (svc p)).matched
  · simp [attemptChain_matched svc row p s0 hp h1, h1]
  · simp only [Bool.not_eq_true] at h1
    by_cases h2 : build_hospital_address row ≠ "" ∧ build_hospital_address row ≠ p
    · by_cases h4 : ((parseMatches (svc (build_hospital_address row))).lat = Option.none
        ∨ (parseMatches (svc (build_hospital_address row))).lon = Option.none)
      · by_cases h5 : build_city_address row ≠ ""
        · by_cases h3 : (parseMatches (svc (build_hospital_address row))).matched
          · rcases h4 with h4 | h4 <;>
              simp [Geo.matched_eq_true_iff, h4] at h3
          · simp only [Bool.not_eq_true] at h3
            simp [attemptChain, census_geocode, hp, h1, h2, h2.1, h4, h5, h3]
            split <;> rfl
        · simp only [ne_eq, not_not] at h5
          by_cases h3 : (parseMatches (svc (build_hospital_address row))).matched
          · rcases h4 with h4 | h4 <;>
              simp [Geo.matched_eq_true_iff, h4] at h3
          · simp only [Bool.not_eq_true] at h3
            simp [attemptChain, census_geocode, hp, h1, h2, h2.1, h4, h5, h3]
      · have h3 : (parseMatches (svc (build_hospital_address row))).matched = true := by
          rw [Geo.matched_eq_true_iff]
          push_neg at h4
          exact ⟨h4.1, h4.2⟩
        simp [attemptChain, census_geocode, hp, h1, h2, h2.1, h4, h3]
    · have h4 : ((parseMatches (svc p)).lat = Option.none
        ∨ (parseMatches (svc p)).lon = Option.none) :=
        (Geo.matched_eq_false_iff _).mp h1
      by_cases h5 : build_city_address row ≠ ""
      · simp [attemptChain, census_geocode, hp, h1, h2, h4, h5]
        split <;> rfl
      · simp only [ne_eq, not_not] at h5
        simp [attemptChain, census_geocode, hp, h1, h2, h4, h5]

theorem attemptChain_src_hosp (svc : String → CensusResponse) (row : Row) (p s0 : String)
    (hp : p ≠ "") (h1 : (parseMatches (svc p)).matched = false)
    (hh : build_hospital_address row ≠ "") (hhp : build_hospital_address row ≠ p)
    (hm : (parseMatches (svc (build_hospital_address row))).matched = true) :
    (attemptChain svc row p s0).2.1 = "census_hospital"
      ∧ (attemptChain svc row p s0).1 = parseMatches (svc (build_hospital_address row)) := by
  have hn : ¬((parseMatches (svc (build_hospital_address row))).lat = Option.none
      ∨ (parseMatches (svc (build_hospital_address row))).lon = Option.none) := by
    rw [Geo.matched_eq_true_iff] at hm
    push_neg
    exact hm
  constructor <;>
    simp [attemptChain, census_geocode, hp, h1, hh, hhp, hm, hn]

theorem attemptChain_src_city (svc : String → CensusResponse) (row : Row) (p s0 : String)
    (hp : p ≠ "") (h1 : (parseMatches (svc p)).matched = false)
    (hg2 : ((if build_hospital_address row ≠ "" ∧ build_hospital_address row ≠ p
             then parseMatches (svc (build_hospital_address row))
             else parseMatches (svc p)).lat = Option.none
            ∨ (if build_hospital_address row ≠ "" ∧ build_hospital_address row ≠ p
               then parseMatches (svc (build_hospital_address row))
               else parseMatches (svc p)).lon = Option.none))
    (hc : build_city_address row ≠ "")
    (hm : (parseMatches (svc (build_city_address row))).matched = true) :
    (attemptChain svc row p s0).2.1 = "census_city"
      ∧ (attemptChain svc row p s0).1 = parseMatches (svc (build_city_address row)) := by
  by_cases h2 : build_hospital_address row ≠ "" ∧ build_hospital_address row ≠ p
  · rw [if_pos h2] at hg2
    have h3 : (parseMatches (svc (build_hospital_address row))).matched = false := by
      rw [Geo.matched_eq_false_iff]
      exact hg2
    refine ⟨?_, ?_⟩ <;>
      simp [attemptChain, census_geocode, hp, h1, h2, h2.1, h3, hg2, hc, hm]
  · rw [if_neg h2] at hg2
    refine ⟨?_, ?_⟩ <;>
      simp [attemptChain, census_geocode, hp, h1, h2, hg2, hc, hm]

theorem attemptChain_all_absent (svc : String → CensusResponse) (row : Row) (p s0 : String)
    (hp : p ≠ "") (h1 : parseMatches (svc p) = Geo.absent)
    (h2 : parseMatches (svc (build_hospital_address row)) = Geo.absent)
    (h3 : parseMatches (svc (build_city_address row)) = Geo.absent) :
    (attemptChain svc row p s0).1 = Geo.absent
      ∧ (attemptChain svc row p s0).2.1 = s0 := by
  have hm1 : (parseMatches (svc p)).matched = false := by simp [h1, Geo.absent, Geo.matched]
  have hm2 : (parseMatches (svc (build_hospital_address row))).matched = false := by
    simp [h2, Geo.absent, Geo.matched]
  have hm3 : (parseMatches (svc (build_city_address row))).matched = false := by
    simp [h3, Geo.absent, Geo.matched]
  by_cases hh : build_hospital_address row ≠ "" ∧ build_hospital_address row ≠ p
  · by_cases hc : build_city_address row ≠ ""
    · constructor <;>
        simp [attemptChain, census_geocode, hp, hm1, hm2, hm3, hh, hh.1, hc, h1, h2, h3,
          Geo.absent, Geo.matched]
    · simp only [ne_eq, not_not] at hc
      constructor <;>
        simp [attemptChain, census_geocode, hp, hm1, hm2, hh, hh.1, hc, h1, h2, Geo.absent,
          Geo.matched]
  · by_cases hc : build_city_address row ≠ ""
    · constructor <;>
        simp [attemptChain, census_geocode, hp, hm1, hm3, hh, hc, h1, h3, Geo.absent,
          Geo.matched]
    · simp only [ne_eq, not_not] at hc
      constructor <;>
        simp [attemptChain, census_geocode, hp, hm1, hh, hc, h1, Geo.absent, Geo.matched]

/-! ### Rounding and cache helper lemmas -/


theorem attemptChain_calls_ne (svc : String → CensusResponse) (row : Row) (p s0 : String)
    (hp : p ≠ "") : (attemptChain svc row p s0).2.2 ≠ [] := by
  rw [attemptChain_calls_shape svc row p s0 hp]
  simp

theorem roundPair_eq (prec : ℤ) (lat lon l1 l2 : PyVal)
    (h1 : roundCell prec lat = Option.some l1) (h2 : roundCell prec lon = Option.some l2) :
    roundPair prec lat lon = (l1, l2) := by
  simp [roundPair, h1, h2]

theorem roundPair_fst_of_ok (prec : ℤ) (lat lon l1 : PyVal)
    (h1 : roundCell prec lat = Option.some l1) : (roundPair prec lat lon).1 = l1 := by
  unfold roundPair
  rw [h1]
  cases roundCell prec lon <;> simp

theorem roundPair_fail (prec : ℤ) (lat lon : PyVal)
    (h1 : roundCell prec lat = Option.none) : roundPair prec lat lon = (lat, lon) := by
  simp [roundPair, h1]

theorem roundCell_ofOptQ (prec : ℤ) (o : Option ℚ) :
    roundCell prec (ofOptQ o) =
      Option.some (match o with
        | Option.some q => PyVal.vNum (roundToDec prec q)
        | Option.none => PyVal.vNone) := by
  cases o <;> simp [ofOptQ, roundCell]

theorem ofOptQ_some (q : ℚ) : ofOptQ (Option.some q) = PyVal.vNum q := rfl

theorem ofOptQ_none : ofOptQ Option.none = PyVal.vNone := rfl

theorem preCells_some (row : Row) (g : Geo) :
    preCells row (Option.some g) = (ofOptQ g.lat, ofOptQ g.lon, ofOptS g.conf) := rfl

theorem preCells_none (row : Row) :
    preCells row Option.none
      = (pyGet row "Latitude", pyGet row "Longitude", pyGet row "Geo_Confidence") := rfl

theorem processRow_mono (svc : String → CensusResponse) (prec : ℤ) (c : Cache) (row : Row)
    (k : String) (v : Geo) (h : dictGet c k = Option.some v) :
    dictGet (processRow svc prec c row).1 k = Option.some v := by
  rw [processRow_cache]
  by_cases he : entersLookup row
  · cases hcc : dictGet c (build_primary_address row) with
    | none =>
      rw [resolveRow_miss svc c row he hcc]
      exact dictGet_append_left _ _ _ _ h
    | some g => rw [resolveRow_hit svc c row g he hcc]; exact h
  · rw [resolveRow_not_enter svc c row (Bool.not_eq_true _ ▸ he)]
    exact h

theorem processRow_post (svc : String → CensusResponse) (prec : ℤ) (c : Cache) (row : Row)
    (g : Geo) (h : (processRow svc prec c row).2.geo = Option.some g) :
    dictGet (processRow svc prec c row).1 (build_primary_address row) = Option.some g := by
  rw [processRow_cache]
  rw [processRow_trace] at h
  by_cases he : entersLookup row
  · cases hcc : dictGet c (build_primary_address row) with
    | none =>
      rw [resolveRow_miss svc c row he hcc] at h ⊢
      simp at h
      rw [← h]
      exact dictGet_append_self _ _ _ hcc
    | some g0 =>
      rw [resolveRow_hit svc c row g0 he hcc] at h ⊢
      simp at h
      rw [← h]
      exact hcc
  · rw [resolveRow_not_enter svc c row (Bool.not_eq_true _ ▸ he)] at h
    simp at h

theorem processRow_cached (svc : String → CensusResponse) (prec : ℤ) (c : Cache) (row : Row)
    (g g' : Geo) (hcc : dictGet c (build_primary_address row) = Option.some g)
    (h : (processRow svc prec c row).2.geo = Option.some g') :
    g' = g ∧ (processRow svc prec c row).2.calls = [] ∧
      (processRow svc prec c row).2.slept = 0 := by
  rw [processRow_trace] at h ⊢
  by_cases he : entersLookup row
  · rw [resolveRow_hit svc c row g he hcc] at h ⊢
    simp at h
    exact ⟨h.symm, rfl, rfl⟩
  · rw [resolveRow_not_enter svc c row (Bool.not_eq_true _ ▸ he)] at h
    simp at h

theorem processRow_calls_post (svc : String → CensusResponse) (prec : ℤ) (c : Cache)
    (row : Row) (h : (processRow svc prec c row).2.calls ≠ []) :
    (dictGet (processRow svc prec c row).1 (build_primary_address row)).isSome = true := by
  rw [processRow_cache]
  rw [processRow_trace] at h
  by_cases he : entersLookup row
  · cases hcc : dictGet c (build_primary_address row) with
    | none =>
      rw [resolveRow_miss svc c row he hcc]
      rw [dictGet_append_self _ _ _ hcc]
      rfl
    | some g =>
      rw [resolveRow_hit svc c row g he hcc]
      rw [hcc]
      rfl
  · rw [resolveRow_not_enter svc c row (Bool.not_eq_true _ ▸ he)] at h
    simp at h

/-- C1: for a row entering resolution without truthy coordinates and with an
uncached primary address: an empty primary address triggers no lookup of any
tier; otherwise the primary address is queried first, and when it matches the
final source tag is exactly census_primary with no hospital or city lookup;
the hospital lookup is issued only when the primary lookup was unmatched and
the hospital address is non-empty and differs from the primary address
(matching sets census_hospital); the city lookup is issued only when the
result is still unmatched and the city address is non-empty (matching sets
census_city). -/
theorem claim_C1 (svc : String → CensusResponse) (prec : ℤ) (c : Cache) (row : Row)
    (hco : (truthy (pyGet row "Latitude") && truthy (pyGet row "Longitude")) = false)
    (hmiss : dictGet c (build_primary_address row) = Option.none) :
    (build_primary_address row = "" → (processRow svc prec c row).2.calls = []) ∧
    (build_primary_address row ≠ "" →
      ((parseMatches (svc (build_primary_address row))).matched = true →
        dictGet (processRow svc prec c row).2.out "Geo_Source"
            = Option.some (PyVal.vStr "census_primary")
          ∧ (processRow svc prec c row).2.calls = [build_primary_address row]) ∧
      (processRow svc prec c row).2.calls =
        [build_primary_address row]
          ++ (if (parseMatches (svc (build_primary_address row))).matched = false
                ∧ build_hospital_address row ≠ ""
                ∧ build_hospital_address row ≠ build_primary_address row
              then [build_hospital_address row] else [])
          ++ (if (parseMatches (svc (build_primary_address row))).matched = false
                ∧ ((if build_hospital_address row ≠ ""
                      ∧ build_hospital_address row ≠ build_primary_address row
                    then parseMatches (svc (build_hospital_address row))
                    else parseMatches (svc (build_primary_address row))).lat = Option.none
                  ∨ (if build_hospital_address row ≠ ""
                       ∧ build_hospital_address row ≠ build_primary_address row
                     then parseMatches (svc (build_hospital_address row))
                     else parseMatches (svc (build_primary_address row))).lon = Option.none)
                ∧ build_city_address row ≠ ""
              then [build_city_address row] else []) ∧
      ((parseMatches (svc (build_primary_address row))).matched = false →
        build_hospital_address row ≠ "" →
        build_hospital_address row ≠ build_primary_address row →
        (parseMatches (svc (build_hospital_address row))).matched = true →
        dictGet (processRow svc prec c row).2.out "Geo_Source"
          = Option.some (PyVal.vStr "census_hospital")) ∧
      ((parseMatches (svc (build_primary_address row))).matched = false →
        ((if build_hospital_address row ≠ ""
            ∧ build_hospital_address row ≠ build_primary_address row
          then parseMatches (svc (build_hospital_address row))
          else parseMatches (svc (build_primary_address row))).lat = Option.none
         ∨ (if build_hospital_address row ≠ ""
              ∧ build_hospital_address row ≠ build_primary_address row
            then parseMatches (svc (build_hospital_address row))
            else parseMatches (svc (build_primary_address row))).lon = Option.none) →
        build_city_address row ≠ "" →
        (parseMatches (svc (build_city_address row))).matched = true →
        dictGet (processRow svc prec c row).2.out "Geo_Source"
          = Option.some (PyVal.vStr "census_city"))) := by
  constructor
  · intro hp
    have he : entersLookup row = false := by simp [entersLookup, hp]
    simp [processRow_trace, resolveRow_not_enter svc c row he]
  · intro hp
    have he : entersLookup row = true := entersLookup_eq_true row hco hp
    have hres := resolveRow_miss svc c row he hmiss
    refine ⟨?_, ?_, ?_, ?_⟩
    · intro hm
      have hac := attemptChain_matched svc row (build_primary_address row)
        (sourceDefault row) hp hm
      rw [processRow_trace, dictGet_outRowOf_source]
      simp [hres, hac]
    · rw [processRow_trace]
      simp only [hres]
      exact attemptChain_calls_shape svc row (build_primary_address row)
        (sourceDefault row) hp
    · intro h1 hh hhp hm
      have hac := attemptChain_src_hosp svc row (build_primary_address row)
        (sourceDefault row) hp h1 hh hhp hm
      rw [processRow_trace, dictGet_outRowOf_source]
      simp [hres, hac.1]
    · intro h1 hg2 hc2 hm
      have hac := attemptChain_src_city svc row (build_primary_address row)
        (sourceDefault row) hp h1 hg2 hc2 hm
      rw [processRow_trace, dictGet_outRowOf_source]
      simp [hres, hac.1]

/-- C8: the inter-request delay is applied exactly once per row that performs
at least one network call — equivalently per uncached entered row — and
never for cache-hit rows or rows skipped because coordinates pre-exist or
the primary address is empty; a row is never slept more than once however
many calls its fallback tiers make. -/
theorem claim_C8 (svc : String → CensusResponse) (prec : ℤ) (c : Cache) (row : Row) :
    (processRow svc prec c row).2.slept ≤ 1 ∧
    ((processRow svc prec c row).2.slept = 1 ↔ (processRow svc prec c row).2.calls ≠ []) ∧
    ((processRow svc prec c row).2.hit = true → (processRow svc prec c row).2.slept = 0) ∧
    (entersLookup row = false →
      (processRow svc prec c row).2.slept = 0 ∧ (processRow svc prec c row).2.calls = []) ∧
    (entersLookup row = true → dictGet c (build_primary_address row) = Option.none →
      (processRow svc prec c row).2.slept = 1) := by
  rw [processRow_trace]
  by_cases he : entersLookup row
  · cases hcc : dictGet c (build_primary_address row) with
    | none =>
      rw [resolveRow_miss svc c row he hcc]
      have hne := attemptChain_calls_ne svc row _ (sourceDefault row)
        (entersLookup_primary_ne row he)
      simp [hne, he]
    | some g =>
      rw [resolveRow_hit svc c row g he hcc]
      simp [he, hcc]
  · have he' : entersLookup row = false := by simpa using he
    rw [resolveRow_not_enter svc c row he']
    simp [he']

/-- C6: the single-address lookup returns the absent triple for the empty
address without any network request; a non-empty address issues exactly one
request; a successful response without match candidates yields the absent
triple; otherwise exactly the first candidate is used — its y/x coordinates
and tiger-line side — independent of any further candidates. -/
theorem claim_C6 (svc : String → CensusResponse) (addr : String) (h : addr ≠ "") :
    census_geocode svc "" = (Geo.absent, []) ∧
    census_geocode svc addr = (parseMatches (svc addr), [addr]) ∧
    (∀ resp : CensusResponse, resp.addressMatches = [] → parseMatches resp = Geo.absent) ∧
    (∀ (m : AddressMatch) (rest : List AddressMatch),
      parseMatches ⟨m :: rest⟩ =
        ⟨(m.coordinates.getD ⟨Option.none, Option.none⟩).y,
         (m.coordinates.getD ⟨Option.none, Option.none⟩).x,
         (m.tigerLine.getD ⟨Option.none⟩).side⟩
      ∧ parseMatches ⟨m :: rest⟩ = parseMatches ⟨[m]⟩) := by
  refine ⟨by simp [census_geocode], by simp [census_geocode, h], ?_, ?_⟩
  · intro resp hr
    cases resp with
    | mk ms => cases hr; rfl
  · intro m rest
    exact ⟨rfl, rfl⟩

/-- C7: whenever the resolution chain produced a present coordinate —
whichever tier or cache hit produced it — the written cell is that
coordinate rounded to the configured decimal precision; 40.712776 rounds to
40.71278 at precision 5 and to 40.71 at precision 2; rounding a non-numeric
stored value is a silent no-op leaving the value as-is. -/
theorem claim_C7 (svc : String → CensusResponse) (prec : ℤ) (c : Cache) (row : Row) :
    (∀ g q, (processRow svc prec c row).2.geo = Option.some g → g.lat = Option.some q →
      dictGet (processRow svc prec c row).2.out "Latitude"
        = Option.some (PyVal.vNum (roundToDec prec q))) ∧
    (∀ g q, (processRow svc prec c row).2.geo = Option.some g → g.lon = Option.some q →
      dictGet (processRow svc prec c row).2.out "Longitude"
        = Option.some (PyVal.vNum (roundToDec prec q))) ∧
    roundToDec 5 (decimal 40712776 6) = decimal 4071278 5 ∧
    roundToDec 2 (decimal 40712776 6) = decimal 4071 2 ∧
    (∀ s, entersLookup row = false → pyGet row "Latitude" = PyVal.vStr s →
      parseFloat s = Option.none →
      dictGet (processRow svc prec c row).2.out "Latitude"
        = Option.some (PyVal.vStr s)) := by
  refine ⟨?_, ?_, by decide, by decide, ?_⟩
  · intro g q hg hq
    rw [processRow_trace] at hg ⊢
    simp only at hg
    rw [hg, dictGet_outRowOf_lat, preCells_some]
    have h1 : roundCell prec (PyVal.vNum q) = Option.some (PyVal.vNum (roundToDec prec q)) := by
      simp [roundCell]
    dsimp only
    rw [hq, ofOptQ_some, roundPair_fst_of_ok prec (PyVal.vNum q) (ofOptQ g.lon)
      (PyVal.vNum (roundToDec prec q)) h1]
  · intro g q hg hq
    rw [processRow_trace] at hg ⊢
    simp only at hg
    rw [hg, dictGet_outRowOf_lon, preCells_some]
    have h2 : roundCell prec (PyVal.vNum q) = Option.some (PyVal.vNum (roundToDec prec q)) := by
      simp [roundCell]
    dsimp only
    rw [hq, ofOptQ_some, roundPair_eq prec (ofOptQ g.lat) (PyVal.vNum q) _ _
      (roundCell_ofOptQ prec g.lat) h2]
  · intro s he hs hparse
    have he' := resolveRow_not_enter svc c row he
    have hgeo : (resolveRow svc c row).geo = Option.none := by rw [he']
    rw [processRow_trace, dictGet_outRowOf_lat, hgeo, preCells_none]
    have h1 : roundCell prec (PyVal.vStr s) = Option.none := by
      simp [roundCell, hparse]
    dsimp only
    rw [hs, roundPair_fail prec (PyVal.vStr s) (pyGet row "Longitude") h1]

/-- C3: a row that already carries truthy latitude and longitude performs no
geocoding lookup, no sleep and leaves the cache unchanged; its source is the
pre-existing Geo_Source or the default census; and when the stored
coordinates are decimal strings whose values are stable under rounding at
the configured precision (as any value written by a previous run at the same
precision is), the re-run writes back exactly the same numeric values. -/
theorem claim_C3 (svc : String → CensusResponse) (prec : ℤ) (c : Cache) (row : Row)
    (hlat : truthy (pyGet row "Latitude") = true)
    (hlon : truthy (pyGet row "Longitude") = true) :
    (processRow svc prec c row).1 = c ∧
    (processRow svc prec c row).2.calls = [] ∧
    (processRow svc prec c row).2.slept = 0 ∧
    (processRow svc prec c row).2.geo = Option.none ∧
    dictGet (processRow svc prec c row).2.out "Geo_Source"
      = Option.some (PyVal.vStr (sourceDefault row)) ∧
    (∀ s q, pyGet row "Latitude" = PyVal.vStr s → parseFloat s = Option.some q →
      roundToDec prec q = q →
      dictGet (processRow svc prec c row).2.out "Latitude"
        = Option.some (PyVal.vNum q)) ∧
    (∀ sa qa sb qb, pyGet row "Latitude" = PyVal.vStr sa → parseFloat sa = Option.some qa →
      pyGet row "Longitude" = PyVal.vStr sb → parseFloat sb = Option.some qb →
      roundToDec prec qb = qb →
      dictGet (processRow svc prec c row).2.out "Longitude"
        = Option.some (PyVal.vNum qb)) := by
  have he : entersLookup row = false := by simp [entersLookup, hlat, hlon]
  have hr := resolveRow_not_enter svc c row he
  refine ⟨?_, ?_, ?_, ?_, ?_, ?_, ?_⟩
  · rw [processRow_cache, hr]
  · rw [processRow_trace, hr]
  · rw [processRow_trace, hr]
  · rw [processRow_trace, hr]
  · rw [processRow_trace, hr, dictGet_outRowOf_source]
  · intro s q hs hparse hstable
    have hgeo : (resolveRow svc c row).geo = Option.none := by rw [hr]
    rw [processRow_trace, dictGet_outRowOf_lat, hgeo, preCells_none]
    have h1 : roundCell prec (PyVal.vStr s) = Option.some (PyVal.vNum q) := by
      simp [roundCell, hparse, hstable]
    dsimp only
    rw [hs, roundPair_fst_of_ok prec (PyVal.vStr s) (pyGet row "Longitude") (PyVal.vNum q) h1]
  · intro sa qa sb qb hsa hpa hsb hpb hstable
    have hgeo : (resolveRow svc c row).geo = Option.none := by rw [hr]
    rw [processRow_trace, dictGet_outRowOf_lon, hgeo, preCells_none]
    have h1 : roundCell prec (PyVal.vStr sa) = Option.some (PyVal.vNum (roundToDec prec qa)) := by
      simp [roundCell, hpa]
    have h2 : roundCell prec (PyVal.vStr sb) = Option.some (PyVal.vNum qb) := by
      simp [roundCell, hpb, hstable]
    dsimp only
    rw [hsa, hsb, roundPair_eq prec (PyVal.vStr sa) (PyVal.vStr sb) _ _ h1 h2]

/-- C10: a row resolved via a cache hit has its Geo_Source written as the
row's pre-existing value or the default census — the tier tags are assigned
only on the cache-miss path, so a cache-hit row whose own source is not a
tier tag never carries one, even though the cached triple originated from a
tier lookup of an earlier row. -/
theorem claim_C10 (svc : String → CensusResponse) (prec : ℤ) (c : Cache) (row : Row) (g : Geo)
    (henter : entersLookup row = true)
    (hhit : dictGet c (build_primary_address row) = Option.some g) :
    (processRow svc prec c row).2.hit = true ∧
    (processRow svc prec c row).2.calls = [] ∧
    dictGet (processRow svc prec c row).2.out "Geo_Source"
      = Option.some (PyVal.vStr (sourceDefault row)) ∧
    (∀ tag, tag ∈ (["census_primary", "census_hospital", "census_city"] : List String) →
      sourceDefault row ≠ tag →
      dictGet (processRow svc prec c row).2.out "Geo_Source"
        ≠ Option.some (PyVal.vStr tag)) := by
  have hr := resolveRow_hit svc c row g henter hhit
  refine ⟨?_, ?_, ?_, ?_⟩
  · rw [processRow_trace, hr]
  · rw [processRow_trace, hr]
  · rw [processRow_trace, hr, dictGet_outRowOf_source]
  · intro tag htag hne
    rw [processRow_trace, hr, dictGet_outRowOf_source]
    simp [hne]

/-! ### Unmatched records and the run result -/


theorem unmatchedOf_isSome_iff (prec : ℤ) (row : Row) (src : String) (geo : Option Geo) :
    (unmatchedOf prec row src geo).isSome = true ↔
      ((roundPair prec (preCells row geo).1 (preCells row geo).2.1).1 = PyVal.vNone
        ∨ (roundPair prec (preCells row geo).1 (preCells row geo).2.1).2 = PyVal.vNone) := by
  simp only [unmatchedOf]
  split
  case isTrue h => simpa using h
  case isFalse h => simpa using h

theorem unmatchedOf_fields (prec : ℤ) (row : Row) (src : String) (geo : Option Geo)
    (u : List (String × PyVal)) (h : unmatchedOf prec row src geo = Option.some u) :
    dictGet u "Unmatched_Primary_Address"
        = Option.some (PyVal.vStr (build_primary_address row)) ∧
    dictGet u "Unmatched_Hospital_Address"
        = Option.some (PyVal.vStr (build_hospital_address row)) ∧
    dictGet u "Unmatched_City_Address"
        = Option.some (PyVal.vStr (build_city_address row)) ∧
    (∀ k, k ≠ "Unmatched_Primary_Address" → k ≠ "Unmatched_Hospital_Address" →
      k ≠ "Unmatched_City_Address" →
      dictGet u k = dictGet (outRowOf prec row src geo) k) := by
  simp only [unmatchedOf] at h
  split at h
  case isFalse => exact absurd h (by simp)
  case isTrue hcond =>
    injection h with h
    subst h
    refine ⟨?_, ?_, ?_, ?_⟩
    · rw [dictGet_setCell_ne _ _ _ _ (by decide), dictGet_setCell_ne _ _ _ _ (by decide),
        dictGet_setCell_self]
    · rw [dictGet_setCell_ne _ _ _ _ (by decide), dictGet_setCell_self]
    · rw [dictGet_setCell_self]
    · intro k h1 h2 h3
      rw [dictGet_setCell_ne _ _ _ _ h3, dictGet_setCell_ne _ _ _ _ h2,
        dictGet_setCell_ne _ _ _ _ h1]

theorem unmatchedOf_none_of_matched (prec : ℤ) (row : Row) (src : String) (g : Geo)
    (hm : g.matched = true) :
    unmatchedOf prec row src (Option.some g) = Option.none := by
  rw [Geo.matched_eq_true_iff] at hm
  obtain ⟨a, ha⟩ := Option.ne_none_iff_exists'.mp hm.1
  obtain ⟨b, hb⟩ := Option.ne_none_iff_exists'.mp hm.2
  simp only [unmatchedOf]
  rw [preCells_some]
  dsimp only
  rw [ha, hb, ofOptQ_some, ofOptQ_some, roundPair_num]
  simp

theorem roundPair_vNone (prec : ℤ) :
    roundPair prec PyVal.vNone PyVal.vNone = (PyVal.vNone, PyVal.vNone) := by
  simp [roundPair, roundCell]

theorem main_spec (svc : String → CensusResponse) (prec : ℤ) (start : ℕ)
    (limit : Option ℕ) (rows : List Row) (res : RunResult)
    (h : main svc prec start limit rows = Option.some res) :
    res.traces = (processList svc prec [] (sliceOf start limit rows)).2 ∧
    res.fieldnames = headersOf rows
      ++ RESULT_COLS.filter (fun col => !(headersOf rows).contains col) ∧
    res.outRows = res.traces.map RowTrace.out ∧
    res.unmatched = res.traces.filterMap RowTrace.unmatchedRec ∧
    res.unmatchedFile = (if res.unmatched = [] then Option.none
      else Option.some ("unmatched_geocode.csv", res.unmatched)) := by
  unfold main at h
  split at h
  · exact absurd h (by simp)
  split at h
  · exact absurd h (by simp)
  injection h with h
  subst h
  exact ⟨rfl, rfl, rfl, rfl, rfl⟩

/-- C4: a row is appended to the unmatched set iff its final latitude or
longitude is absent; an unmatched record carries the three candidate
addresses in three extra columns and agrees with the augmented output row on
every other column; the unmatched side table is written to the fixed path
exactly when the set is non-empty; a row resolved at the city tier does not
appear in the unmatched set and gets source census_city; a row for which all
three tiers return no match is recorded unmatched with empty
latitude/longitude in the main output. -/
theorem claim_C4 (svc : String → CensusResponse) (prec : ℤ) (c : Cache) (row : Row)
    (start : ℕ) (limit : Option ℕ) (rows : List Row) :
    ((processRow svc prec c row).2.unmatchedRec.isSome = true ↔
      (dictGet (processRow svc prec c row).2.out "Latitude" = Option.some PyVal.vNone
        ∨ dictGet (processRow svc prec c row).2.out "Longitude"
            = Option.some PyVal.vNone)) ∧
    (∀ u, (processRow svc prec c row).2.unmatchedRec = Option.some u →
      dictGet u "Unmatched_Primary_Address"
          = Option.some (PyVal.vStr (build_primary_address row)) ∧
      dictGet u "Unmatched_Hospital_Address"
          = Option.some (PyVal.vStr (build_hospital_address row)) ∧
      dictGet u "Unmatched_City_Address"
          = Option.some (PyVal.vStr (build_city_address row)) ∧
      (∀ k, k ≠ "Unmatched_Primary_Address" → k ≠ "Unmatched_Hospital_Address" →
        k ≠ "Unmatched_City_Address" →
        dictGet u k = dictGet (processRow svc prec c row).2.out k)) ∧
    (∀ res, main svc prec start limit rows = Option.some res →
      ((res.unmatchedFile = Option.none) ↔ res.unmatched = []) ∧
      (∀ pth l, res.unmatchedFile = Option.some (pth, l) →
        pth = "unmatched_geocode.csv" ∧ l = res.unmatched) ∧
      res.unmatched = res.traces.filterMap RowTrace.unmatchedRec) ∧
    (entersLookup row = true → dictGet c (build_primary_address row) = Option.none →
      (parseMatches (svc (build_primary_address row))).matched = false →
      ((if build_hospital_address row ≠ ""
          ∧ build_hospital_address row ≠ build_primary_address row
        then parseMatches (svc (build_hospital_address row))
        else parseMatches (svc (build_primary_address row))).lat = Option.none
       ∨ (if build_hospital_address row ≠ ""
            ∧ build_hospital_address row ≠ build_primary_address row
          then parseMatches (svc (build_hospital_address row))
          else parseMatches (svc (build_primary_address row))).lon = Option.none) →
      build_city_address row ≠ "" →
      (parseMatches (svc (build_city_address row))).matched = true →
      (processRow svc prec c row).2.unmatchedRec = Option.none ∧
      dictGet (processRow svc prec c row).2.out "Geo_Source"
        = Option.some (PyVal.vStr "census_city")) ∧
    (entersLookup row = true → dictGet c (build_primary_address row) = Option.none →
      parseMatches (svc (build_primary_address row)) = Geo.absent →
      parseMatches (svc (build_hospital_address row)) = Geo.absent →
      parseMatches (svc (build_city_address row)) = Geo.absent →
      (processRow svc prec c row).2.unmatchedRec.isSome = true ∧
      dictGet (processRow svc prec c row).2.out "Latitude" = Option.some PyVal.vNone ∧
      dictGet (processRow svc prec c row).2.out "Longitude"
        = Option.some PyVal.vNone) := by
  refine ⟨?_, ?_, ?_, ?_, ?_⟩
  · rw [processRow_trace, dictGet_outRowOf_lat, dictGet_outRowOf_lon,
      unmatchedOf_isSome_iff]
    simp
  · intro u hu
    rw [processRow_trace] at hu ⊢
    have hf := unmatchedOf_fields prec row (resolveRow svc c row).src
      (resolveRow svc c row).geo u hu
    exact hf
  · intro res hres
    have hs := main_spec svc prec start limit rows res hres
    refine ⟨?_, ?_, hs.2.2.2.1⟩
    · rw [hs.2.2.2.2]
      by_cases hu : res.unmatched = [] <;> simp [hu]
    · intro pth l hl
      rw [hs.2.2.2.2] at hl
      by_cases hu : res.unmatched = [] <;> simp [hu] at hl
      exact ⟨hl.1.symm, hl.2.symm⟩
  · intro he hmiss h1 hg2 hcity hm
    have hres := resolveRow_miss svc c row he hmiss
    have hac := attemptChain_src_city svc row (build_primary_address row)
      (sourceDefault row) (entersLookup_primary_ne row he) h1 hg2 hcity hm
    constructor
    · rw [processRow_trace]
      have hgeo : (resolveRow svc c row).geo
          = Option.some (parseMatches (svc (build_city_address row))) := by
        rw [hres, hac.2]
      rw [hgeo]
      exact unmatchedOf_none_of_matched prec row _ _ hm
    · rw [processRow_trace, dictGet_outRowOf_source]
      have hsrc : (resolveRow svc c row).src = "census_city" := by
        rw [hres, hac.1]
      rw [hsrc]
  · intro he hmiss h1 h2 h3
    have hres := resolveRow_miss svc c row he hmiss
    have hac := attemptChain_all_absent svc row (build_primary_address row)
      (sourceDefault row) (entersLookup_primary_ne row he) h1 h2 h3
    have hgeo : (resolveRow svc c row).geo = Option.some Geo.absent := by
      rw [hres, hac.1]
    have hrp : roundPair prec (preCells row (Option.some Geo.absent)).1
        (preCells row (Option.some Geo.absent)).2.1 = (PyVal.vNone, PyVal.vNone) := by
      rw [preCells_some]
      dsimp only
      simp only [Geo.absent, ofOptQ_none]
      exact roundPair_vNone prec
    refine ⟨?_, ?_, ?_⟩
    · rw [processRow_trace]
      dsimp only
      rw [hgeo, unmatchedOf_isSome_iff, hrp]
      simp
    · rw [processRow_trace, dictGet_outRowOf_lat, hgeo, hrp]
    · rw [processRow_trace, dictGet_outRowOf_lon, hgeo, hrp]

/-! ### The processing loop -/


theorem processList_nil (svc : String → CensusResponse) (prec : ℤ) (c : Cache) :
    processList svc prec c [] = (c, []) := rfl

theorem processList_cons (svc : String → CensusResponse) (prec : ℤ) (c : Cache)
    (r : Row) (rs : List Row) :
    processList svc prec c (r :: rs) =
      ((processList svc prec (processRow svc prec c r).1 rs).1,
       (processRow svc prec c r).2
         :: (processList svc prec (processRow svc prec c r).1 rs).2) := rfl

theorem processRow_primary (svc : String → CensusResponse) (prec : ℤ) (c : Cache)
    (row : Row) : (processRow svc prec c row).2.primary = build_primary_address row := rfl

theorem processList_get (svc : String → CensusResponse) (prec : ℤ) :
    ∀ (rs : List Row) (c : Cache) (i : ℕ) (t : RowTrace),
      ((processList svc prec c rs).2)[i]? = Option.some t →
      ∃ (cpre : Cache) (r : Row), rs[i]? = Option.some r
        ∧ (processRow svc prec cpre r).2 = t := by
  intro rs
  induction rs with
  | nil => intro c i t ht; simp [processList_nil] at ht
  | cons r rs ih =>
    intro c i t ht
    rw [processList_cons] at ht
    cases i with
    | zero =>
      simp only [List.getElem?_cons_zero] at ht
      injection ht with ht
      exact ⟨c, r, by simp, ht⟩
    | succ i =>
      simp only [List.getElem?_cons_succ] at ht
      obtain ⟨cpre, r', h1, h2⟩ := ih _ i t ht
      exact ⟨cpre, r', by simpa using h1, h2⟩

theorem processList_mem (svc : String → CensusResponse) (prec : ℤ) :
    ∀ (rs : List Row) (c : Cache) (t : RowTrace),
      t ∈ (processList svc prec c rs).2 →
      ∃ (cpre : Cache) (r : Row), r ∈ rs ∧ (processRow svc prec cpre r).2 = t := by
  intro rs
  induction rs with
  | nil => intro c t ht; simp [processList_nil] at ht
  | cons r rs ih =>
    intro c t ht
    rw [processList_cons] at ht
    rcases List.mem_cons.mp ht with h | h
    · exact ⟨c, r, List.mem_cons_self r rs, h.symm⟩
    · obtain ⟨cpre, r', h1, h2⟩ := ih _ t h
      exact ⟨cpre, r', List.mem_cons_of_mem r h1, h2⟩

theorem processList_length (svc : String → CensusResponse) (prec : ℤ) :
    ∀ (rs : List Row) (c : Cache),
      (processList svc prec c rs).2.length = rs.length := by
  intro rs
  induction rs with
  | nil => intro c; rfl
  | cons r rs ih => intro c; rw [processList_cons]; simp [ih]

theorem processRow_out_of_geo (svc : String → CensusResponse) (prec : ℤ) (c : Cache)
    (row : Row) (g : Geo)
    (hg : (processRow svc prec c row).2.geo = Option.some g) :
    dictGet (processRow svc prec c row).2.out "Latitude"
      = Option.some (roundPair prec (ofOptQ g.lat) (ofOptQ g.lon)).1 ∧
    dictGet (processRow svc prec c row).2.out "Longitude"
      = Option.some (roundPair prec (ofOptQ g.lat) (ofOptQ g.lon)).2 ∧
    dictGet (processRow svc prec c row).2.out "Geo_Confidence"
      = Option.some (ofOptS g.conf) := by
  rw [processRow_trace] at hg ⊢
  simp only at hg
  refine ⟨?_, ?_, ?_⟩
  · rw [dictGet_outRowOf_lat, hg, preCells_some]
  · rw [dictGet_outRowOf_lon, hg, preCells_some]
  · rw [dictGet_outRowOf_conf, hg, preCells_some]

theorem processList_mono (svc : String → CensusResponse) (prec : ℤ) :
    ∀ (rs : List Row) (c : Cache) (k : String) (v : Geo),
      dictGet c k = Option.some v →
      dictGet (processList svc prec c rs).1 k = Option.some v := by
  intro rs
  induction rs with
  | nil => intro c k v h; exact h
  | cons r rs ih =>
    intro c k v h
    rw [processList_cons]
    exact ih _ _ _ (processRow_mono svc prec c r k v h)

theorem processList_cached_trace (svc : String → CensusResponse) (prec : ℤ) :
    ∀ (rs : List Row) (c : Cache) (p : String) (g : Geo) (j : ℕ) (t : RowTrace)
      (gj : Geo),
      dictGet c p = Option.some g →
      ((processList svc prec c rs).2)[j]? = Option.some t →
      t.primary = p → t.geo = Option.some gj →
      gj = g ∧ t.calls = [] ∧ t.slept = 0 := by
  intro rs
  induction rs with
  | nil => intro c p g j t gj hc ht; simp [processList_nil] at ht
  | cons r rs ih =>
    intro c p g j t gj hc ht hp hg
    rw [processList_cons] at ht
    cases j with
    | zero =>
      simp only [List.getElem?_cons_zero] at ht
      injection ht with ht
      subst ht
      rw [processRow_primary] at hp
      subst hp
      exact processRow_cached svc prec c r g gj hc hg
    | succ j =>
      simp only [List.getElem?_cons_succ] at ht
      exact ih _ p g j t gj (processRow_mono svc prec c r p g hc) ht hp hg

theorem processList_pair (svc : String → CensusResponse) (prec : ℤ) :
    ∀ (rs : List Row) (c : Cache) (i j : ℕ) (ti tj : RowTrace) (gi gj : Geo),
      i < j →
      ((processList svc prec c rs).2)[i]? = Option.some ti →
      ((processList svc prec c rs).2)[j]? = Option.some tj →
      ti.primary = tj.primary →
      ti.geo = Option.some gi → tj.geo = Option.some gj →
      gj = gi ∧ tj.calls = [] ∧ tj.slept = 0 := by
  intro rs
  induction rs with
  | nil => intro c i j ti tj gi gj hij hti; simp [processList_nil] at hti
  | cons r rs ih =>
    intro c i j ti tj gi gj hij hti htj hpr hgi hgj
    rw [processList_cons] at hti htj
    cases i with
    | zero =>
      simp only [List.getElem?_cons_zero] at hti
      injection hti with hti
      subst hti
      obtain ⟨j1, rfl⟩ : ∃ j1, j = j1 + 1 := ⟨j - 1, by omega⟩
      simp only [List.getElem?_cons_succ] at htj
      have hpost := processRow_post svc prec c r gi hgi
      rw [processRow_primary] at hpr
      rw [hpr] at hpost
      exact processList_cached_trace svc prec rs _ _ gi j1 tj gj hpost htj rfl hgj
    | succ i =>
      obtain ⟨j1, rfl⟩ : ∃ j1, j = j1 + 1 := ⟨j - 1, by omega⟩
      simp only [List.getElem?_cons_succ] at hti htj
      exact ih _ i j1 ti tj gi gj (by omega) hti htj hpr hgi hgj

/-- C2: the cache is keyed by the primary-address string: for any two rows of
one run that both enter resolution with the same primary address, the later
row performs no network call and no sleep, resolves to the identical
(latitude, longitude, confidence) triple — matched or absent alike — and its
written latitude/longitude/confidence cells equal the earlier row's. -/
theorem claim_C2 (svc : String → CensusResponse) (prec : ℤ) (c : Cache) (rows : List Row)
    (i j : ℕ) (ti tj : RowTrace) (gi gj : Geo)
    (hij : i < j)
    (hti : ((processList svc prec c rows).2)[i]? = Option.some ti)
    (htj : ((processList svc prec c rows).2)[j]? = Option.some tj)
    (hpr : ti.primary = tj.primary)
    (hgi : ti.geo = Option.some gi) (hgj : tj.geo = Option.some gj) :
    tj.calls = [] ∧ tj.slept = 0 ∧ gj = gi ∧
    dictGet tj.out "Latitude" = dictGet ti.out "Latitude" ∧
    dictGet tj.out "Longitude" = dictGet ti.out "Longitude" ∧
    dictGet tj.out "Geo_Confidence" = dictGet ti.out "Geo_Confidence" := by
  obtain ⟨hgeq, hcalls, hslept⟩ :=
    processList_pair svc prec rows c i j ti tj gi gj hij hti htj hpr hgi hgj
  obtain ⟨ci, ri, _, hti2⟩ := processList_get svc prec rows c i ti hti
  obtain ⟨cj, rj, _, htj2⟩ := processList_get svc prec rows c j tj htj
  rw [← hti2] at hgi
  rw [← htj2] at hgj
  obtain ⟨hi1, hi2, hi3⟩ := processRow_out_of_geo svc prec ci ri gi hgi
  obtain ⟨hj1, hj2, hj3⟩ := processRow_out_of_geo svc prec cj rj gj hgj
  rw [hti2] at hi1 hi2 hi3
  rw [htj2] at hj1 hj2 hj3
  subst hgeq
  exact ⟨hcalls, hslept, rfl, by rw [hi1, hj1], by rw [hi2, hj2], by rw [hi3, hj3]⟩

theorem processRow_no_calls_of_cached (svc : String → CensusResponse) (prec : ℤ)
    (c : Cache) (row : Row) (g : Geo)
    (hc : dictGet c (build_primary_address row) = Option.some g) :
    (processRow svc prec c row).2.calls = [] := by
  rw [processRow_trace]
  by_cases he : entersLookup row
  · rw [resolveRow_hit svc c row g he hc]
  · have he' : entersLookup row = false := by simpa using he
    rw [resolveRow_not_enter svc c row he']

theorem processList_no_calls_of_cached (svc : String → CensusResponse) (prec : ℤ) :
    ∀ (rs : List Row) (c : Cache) (p : String) (g : Geo),
      dictGet c p = Option.some g →
      ∀ t ∈ (processList svc prec c rs).2, t.primary = p → t.calls = [] := by
  intro rs
  induction rs with
  | nil => intro c p g hc t ht; simp [processList_nil] at ht
  | cons r rs ih =>
    intro c p g hc t ht hp
    rw [processList_cons] at ht
    rcases List.mem_cons.mp ht with h | h
    · subst h
      rw [processRow_primary] at hp
      subst hp
      exact processRow_no_calls_of_cached svc prec c r g hc
    · exact ih _ p g (processRow_mono svc prec c r p g hc) t h hp

/-- C5 (amended): within one run at most one row per distinct primary-address
string performs network lookups; a given address string may still be sent
more than once when it recurs as a hospital- or city-tier candidate under a
different primary address (see the counterexample). -/
theorem claim_C5 (svc : String → CensusResponse) (prec : ℤ) :
    ∀ (rs : List Row) (c : Cache) (p : String),
      ((processList svc prec c rs).2.filter
        (fun t => t.primary == p && !t.calls.isEmpty)).length ≤ 1 := by
  intro rs
  induction rs with
  | nil => intro c p; simp [processList_nil]
  | cons r rs ih =>
    intro c p
    rw [processList_cons]
    simp only [List.filter_cons]
    by_cases hb : ((processRow svc prec c r).2.primary == p
        && !(processRow svc prec c r).2.calls.isEmpty) = true
    · rw [if_pos hb]
      simp only [Bool.and_eq_true, beq_iff_eq, Bool.not_eq_true'] at hb
      have hcalls : (processRow svc prec c r).2.calls ≠ [] := by
        intro hnil
        rw [hnil] at hb
        simp at hb
      have hpost := processRow_calls_post svc prec c r hcalls
      obtain ⟨g, hg⟩ := Option.isSome_iff_exists.mp hpost
      rw [processRow_primary] at hb
      have hzero : ((processList svc prec (processRow svc prec c r).1 rs).2.filter
          (fun t => t.primary == p && !t.calls.isEmpty)) = [] := by
        rw [List.filter_eq_nil_iff]
        intro t ht
        simp only [Bool.and_eq_true, beq_iff_eq, Bool.not_eq_true', not_and]
        intro hp2
        have := processList_no_calls_of_cached svc prec rs _ p g
          (hb.1 ▸ hg) t ht hp2
        rw [this]
        simp
      rw [hzero]
      simp
    · rw [if_neg hb]
      exact ih _ p

theorem keys_rowCells (row : Row) :
    (rowCells row).map Prod.fst = row.map Prod.fst := by
  simp [rowCells, List.map_map, Function.comp]

theorem keys_outRowOf (prec : ℤ) (row : Row) (src : String) (geo : Option Geo) :
    (outRowOf prec row src geo).map Prod.fst =
      row.map Prod.fst
        ++ RESULT_COLS.filter (fun col => !(row.map Prod.fst).contains col) := by
  simp only [outRowOf]
  rw [keys_setCell, keys_setCell, keys_setCell, keys_setCell, keys_rowCells]
  by_cases hL : "Latitude" ∈ row.map Prod.fst <;>
    by_cases hLo : "Longitude" ∈ row.map Prod.fst <;>
      by_cases hS : "Geo_Source" ∈ row.map Prod.fst <;>
        by_cases hC : "Geo_Confidence" ∈ row.map Prod.fst <;>
          simp [hL, hLo, hS, hC, RESULT_COLS, List.contains, List.elem_eq_mem]

theorem keys_processRow_out (svc : String → CensusResponse) (prec : ℤ) (c : Cache)
    (row : Row) :
    ((processRow svc prec c row).2.out).map Prod.fst =
      row.map Prod.fst
        ++ RESULT_COLS.filter (fun col => !(row.map Prod.fst).contains col) := by
  rw [processRow_trace]
  exact keys_outRowOf prec row _ _

theorem sliceOf_getElem (start : ℕ) (limit : Option ℕ) (rows : List Row) (i : ℕ)
    (r : Row) (h : (sliceOf start limit rows)[i]? = Option.some r) :
    rows[start + i]? = Option.some r := by
  unfold sliceOf at h
  have hlt : i < endIndex start limit rows.length - start := by
    by_contra hge
    rw [List.getElem?_take_eq_none (by omega)] at h
    exact Option.noConfusion h
  rw [List.getElem?_take_of_lt hlt, List.getElem?_drop] at h
  exact h

theorem sliceOf_subset (start : ℕ) (limit : Option ℕ) (rows : List Row) (r : Row)
    (h : r ∈ sliceOf start limit rows) : r ∈ rows := by
  unfold sliceOf at h
  exact List.mem_of_mem_drop (List.mem_of_mem_take h)

/-- C9: the output fieldnames are exactly the input headers plus the four
result columns appended when absent; every output row has exactly those
columns in that order; there is one trace per processed row; and the i-th
output row is the row at input index start+i, agreeing with it verbatim on
every non-result column. -/
theorem claim_C9 (svc : String → CensusResponse) (prec : ℤ) (start : ℕ)
    (limit : Option ℕ) (rows : List Row) (res : RunResult)
    (hmain : main svc prec start limit rows = Option.some res)
    (hkeys : ∀ r ∈ rows, r.map Prod.fst = headersOf rows) :
    res.fieldnames = headersOf rows
        ++ RESULT_COLS.filter (fun col => !(headersOf rows).contains col) ∧
    res.outRows = res.traces.map RowTrace.out ∧
    res.traces.length = (sliceOf start limit rows).length ∧
    (∀ t ∈ res.traces, t.out.map Prod.fst = res.fieldnames) ∧
    (∀ i t, (res.traces)[i]? = Option.some t →
      ∃ r, rows[start + i]? = Option.some r ∧
        t.out.map Prod.fst = res.fieldnames ∧
        (∀ k, ¬ k ∈ RESULT_COLS →
          dictGet t.out k = (dictGet r k).map PyVal.vStr)) := by
  obtain ⟨htr, hfn, hout, _, _⟩ := main_spec svc prec start limit rows res hmain
  refine ⟨hfn, hout, ?_, ?_, ?_⟩
  · rw [htr, processList_length]
  · intro t ht
    rw [htr] at ht
    obtain ⟨cpre, r, hr, hpr⟩ := processList_mem svc prec _ _ t ht
    rw [← hpr, keys_processRow_out, hkeys r (sliceOf_subset start limit rows r hr), hfn]
  · intro i t ht
    rw [htr] at ht
    obtain ⟨cpre, r, hr, hpr⟩ := processList_get svc prec _ _ i t ht
    refine ⟨r, sliceOf_getElem start limit rows i r hr, ?_, ?_⟩
    · rw [← hpr, keys_processRow_out,
        hkeys r (sliceOf_subset start limit rows r (List.getElem?_mem hr)), hfn]
    · intro k hk
      rw [← hpr, processRow_trace, dictGet_outRowOf_other prec r _ _ k hk]

/-! ### Concrete witnesses -/


/-- C5 counterexample: two rows with different primary addresses but the same
hospital and city fields send the hospital-tier address (and the city-tier
address) to the service twice in one run, refuting "no address string is
ever sent more than once". -/
theorem claim_C5_counterexample :
    ((main svcNoMatch 5 0 Option.none [rowA, rowB]).map
      (fun res => ((res.traces.map RowTrace.calls).flatten.count
        "General Hospital, Springfield, IL, 62701"))) = Option.some 2 := by decide

theorem claim_C1_witness :
    ((truthy (pyGet rowA "Latitude") && truthy (pyGet rowA "Longitude")) = false) ∧
    (dictGet ([] : Cache) (build_primary_address rowA) = Option.none) ∧
    (processRow svcNoMatch 5 [] rowA).2.calls =
      ["1 Main St, Springfield, IL, 62701",
       "General Hospital, Springfield, IL, 62701", "Springfield, IL, 62701"] := by
  refine ⟨by decide, by decide, ?_⟩
  have h := (claim_C1 svcNoMatch 5 [] rowA (by decide) (by decide)).2 (by decide)
  rw [h.2.1]
  decide

theorem claim_C2_witness :
    ((processList svcPrimaryA 5 [] [rowA, rowA]).2)[0]? = Option.some traceA ∧
    ((processList svcPrimaryA 5 [] [rowA, rowA]).2)[1]? = Option.some traceA2 ∧
    traceA.primary = traceA2.primary ∧
    traceA.geo = Option.some gA ∧ traceA2.geo = Option.some gA ∧
    (traceA2.calls = [] ∧ traceA2.slept = 0 ∧ gA = gA ∧
      dictGet traceA2.out "Latitude" = dictGet traceA.out "Latitude" ∧
      dictGet traceA2.out "Longitude" = dictGet traceA.out "Longitude" ∧
      dictGet traceA2.out "Geo_Confidence" = dictGet traceA.out "Geo_Confidence") :=
  ⟨by decide, by decide, by decide, by decide, by decide,
   claim_C2 svcPrimaryA 5 [] [rowA, rowA] 0 1 traceA traceA2 gA gA (by decide)
     (by decide) (by decide) (by decide) (by decide) (by decide)⟩

theorem claim_C3_witness :
    truthy (pyGet rowC "Latitude") = true ∧
    truthy (pyGet rowC "Longitude") = true ∧
    (processRow svcNoMatch 5 [] rowC).1 = [] ∧
    (processRow svcNoMatch 5 [] rowC).2.calls = [] ∧
    (processRow svcNoMatch 5 [] rowC).2.slept = 0 ∧
    dictGet (processRow svcNoMatch 5 [] rowC).2.out "Geo_Source"
      = Option.some (PyVal.vStr "census_primary") ∧
    dictGet (processRow svcNoMatch 5 [] rowC).2.out "Latitude"
      = Option.some (PyVal.vNum (decimal 4071278 5)) ∧
    dictGet (processRow svcNoMatch 5 [] rowC).2.out "Longitude"
      = Option.some (PyVal.vNum (decimal (-7400597) 5)) := by
  have h := claim_C3 svcNoMatch 5 [] rowC (by decide) (by decide)
  refine ⟨by decide, by decide, h.1, h.2.1, h.2.2.1, ?_, ?_, ?_⟩
  · rw [h.2.2.2.2.1]
    decide
  · exact h.2.2.2.2.2.1 "40.71278" (decimal 4071278 5) (by decide) (by decide) (by decide)
  · exact h.2.2.2.2.2.2 "40.71278" (decimal 4071278 5) "-74.00597" (decimal (-7400597) 5)
      (by decide) (by decide) (by decide) (by decide) (by decide)

theorem claim_C4_witness :
    entersLookup rowA = true ∧
    dictGet ([] : Cache) (build_primary_address rowA) = Option.none ∧
    parseMatches (svcNoMatch (build_primary_address rowA)) = Geo.absent ∧
    parseMatches (svcNoMatch (build_hospital_address rowA)) = Geo.absent ∧
    parseMatches (svcNoMatch (build_city_address rowA)) = Geo.absent ∧
    ((processRow svcNoMatch 5 [] rowA).2.unmatchedRec.isSome = true ∧
     dictGet (processRow svcNoMatch 5 [] rowA).2.out "Latitude"
       = Option.some PyVal.vNone ∧
     dictGet (processRow svcNoMatch 5 [] rowA).2.out "Longitude"
       = Option.some PyVal.vNone) :=
  ⟨by decide, by decide, by decide, by decide, by decide,
   (claim_C4 svcNoMatch 5 [] rowA 0 Option.none [rowA]).2.2.2.2 (by decide) (by decide)
     (by decide) (by decide) (by decide)⟩

theorem claim_C6_witness :
    ("x" : String) ≠ "" ∧
    census_geocode svcNoMatch "" = (Geo.absent, []) ∧
    census_geocode svcNoMatch "x" = (parseMatches (svcNoMatch "x"), ["x"]) := by
  have h := claim_C6 svcNoMatch "x" (by decide)
  exact ⟨by decide, h.1, h.2.1⟩

theorem claim_C7_witness :
    dictGet (processRow svcPrimaryA 5 [] rowA).2.out "Latitude"
      = Option.some (PyVal.vNum (decimal 4071278 5)) ∧
    roundToDec 5 (decimal 40712776 6) = decimal 4071278 5 ∧
    roundToDec 2 (decimal 40712776 6) = decimal 4071 2 := by
  have h := claim_C7 svcPrimaryA 5 [] rowA
  refine ⟨?_, h.2.2.1, h.2.2.2.1⟩
  have h1 := h.1 gA (decimal 40712776 6) (by decide) (by decide)
  rw [h1]
  decide

theorem claim_C8_witness :
    (processRow svcNoMatch 5 [] rowA).2.slept ≤ 1 ∧
    ((processRow svcNoMatch 5 [] rowA).2.slept = 1 ↔
      (processRow svcNoMatch 5 [] rowA).2.calls ≠ []) := by
  have h := claim_C8 svcNoMatch 5 [] rowA
  exact ⟨h.1, h.2.1⟩

theorem claim_C9_witness :
    main svcNoMatch 5 0 Option.none [rowA] = Option.some runA ∧
    (∀ r ∈ [rowA], r.map Prod.fst = headersOf [rowA]) ∧
    runA.fieldnames = headersOf [rowA]
      ++ RESULT_COLS.filter (fun col => !(headersOf [rowA]).contains col) ∧
    runA.traces.length = (sliceOf 0 Option.none [rowA]).length := by
  have h := claim_C9 svcNoMatch 5 0 Option.none [rowA] runA (by decide) (by decide)
  exact ⟨by decide, by decide, h.1, h.2.2.1⟩

theorem claim_C10_witness :
    entersLookup rowA = true ∧
    dictGet cacheA (build_primary_address rowA) = Option.some gA ∧
    ((processRow svcNoMatch 5 cacheA rowA).2.hit = true ∧
     (processRow svcNoMatch 5 cacheA rowA).2.calls = [] ∧
     dictGet (processRow svcNoMatch 5 cacheA rowA).2.out "Geo_Source"
       = Option.some (PyVal.vStr (sourceDefault rowA)) ∧
     (∀ tag, tag ∈ (["census_primary", "census_hospital", "census_city"] : List String) →
       sourceDefault rowA ≠ tag →
       dictGet (processRow svcNoMatch 5 cacheA rowA).2.out "Geo_Source"
         ≠ Option.some (PyVal.vStr tag))) :=
  ⟨by decide, by decide,
   claim_C10 svcNoMatch 5 cacheA rowA gA (by decide) (by decide)⟩

end Geocode
